import Mathlib

/-!
Shallow embedding of the architect-mcp-cli TypeScript repository.

The CLI is a thin HTTP client: every command parses flags, performs one
request, optionally filters the returned collection client-side, and renders
the result.  We embed the pure content of each command action as a Lean
function from the parsed options and the (already fetched) response data to
the list of emitted output items together with the process exit code.

Modelling conventions, stated once here:
* JavaScript truthiness on strings and numbers is embedded explicitly
  (`jsOrStr`, `truthyStr`, `truthyNat`): the empty string and `0` are falsy.
* chalk color wrappers are identity on the text they wrap; ANSI escape codes
  carry no information relevant to any claim and are dropped.
* `new Date(x).toLocaleString()` is abstracted as the identity on the raw
  timestamp string (`dateLocale`); no claim concerns locale formatting.
* `JSON.stringify(x, null, 2)` is embedded by `stringify` over an explicit
  `Json` value type; `undefined`-valued fields are dropped at encoding time,
  exactly as `JSON.stringify` drops them.
* A command body's `process.exit(1)` is the exit code `1` in the result; a
  normal return is exit code `0`.
-/

/-- JavaScript `o || d` on an optional string: the empty string is falsy, so
the fallback `d` is produced when `o` is absent or empty. -/
def jsOrStr (o : Option String) (d : String) : String :=
  match o with
  | some s => if s = "" then d else s
  | none => d

/-- JavaScript truthiness test on an optional string, keeping the value:
`some s` survives only when `s` is nonempty. -/
def truthyStr (o : Option String) : Option String :=
  match o with
  | some s => if s = "" then none else some s
  | none => none

/-- JavaScript truthiness test on an optional number: `0` is falsy. -/
def truthyNat (o : Option Nat) : Option Nat :=
  match o with
  | some n => if n = 0 then none else some n
  | none => none

/-- Does the first character list start with the second? -/
def startsWithList : List Char → List Char → Bool
  | _, [] => true
  | [], _ :: _ => false
  | a :: as, b :: bs => a == b && startsWithList as bs

/-- Does `hay` contain `sub` as a contiguous sublist? -/
def hasSubList : List Char → List Char → Bool
  | [], sub => startsWithList [] sub
  | a :: as, sub => startsWithList (a :: as) sub || hasSubList as sub

/-- JavaScript `s.includes(pat)`. -/
def hasSubstr (s pat : String) : Bool :=
  hasSubList s.toList pat.toList

mutual
/-- A JSON value, as produced by parsing a server response body. -/
inductive Json where
  | str : String → Json
  | num : Int → Json
  | bool : Bool → Json
  | null : Json
  | arr : JsonArr → Json
  | obj : JsonObj → Json

/-- A JSON array (own list type, so that serialization is structural). -/
inductive JsonArr where
  | nil : JsonArr
  | cons : Json → JsonArr → JsonArr

/-- A JSON object: an ordered field list, as JavaScript objects are. -/
inductive JsonObj where
  | onil : JsonObj
  | ocons : String → Json → JsonObj → JsonObj
end

def JsonArr.ofList : List Json → JsonArr
  | [] => .nil
  | x :: xs => .cons x (JsonArr.ofList xs)

def JsonObj.ofList : List (String × Json) → JsonObj
  | [] => .onil
  | (k, v) :: fs => .ocons k v (JsonObj.ofList fs)

/-- An optional field of a serialized object: absent when the value is
`undefined`, exactly as `JSON.stringify` omits `undefined`-valued keys. -/
def optField (k : String) (v : Option Json) : List (String × Json) :=
  match v with
  | some j => [(k, j)]
  | none => []

/-- Spaces used for one indentation position of `JSON.stringify(x, null, 2)`. -/
def pad (n : Nat) : String :=
  String.mk (List.replicate n ' ')

mutual
/-- `JSON.stringify(x, null, 2)` at a given current indentation.  String
escaping is immaterial to the claims: the embedded strings contain no
characters needing escapes. -/
def stringifyAt : Nat → Json → String
  | _, .str s => "\"" ++ s ++ "\""
  | _, .num n => toString n
  | _, .bool b => if b then "true" else "false"
  | _, .null => "null"
  | _, .arr .nil => "[]"
  | ind, .arr (.cons x xs) =>
      "[\n" ++ stringifyItems (ind + 2) (JsonArr.cons x xs) ++ "\n" ++ pad ind ++ "]"
  | _, .obj .onil => "\x7b\x7d"
  | ind, .obj (.ocons k v fs) =>
      "\x7b\n" ++ stringifyFields (ind + 2) (JsonObj.ocons k v fs) ++ "\n" ++ pad ind ++ "\x7d"

/-- Comma-and-newline separated array items, each on its own indented line. -/
def stringifyItems : Nat → JsonArr → String
  | _, .nil => ""
  | ind, .cons x .nil => pad ind ++ stringifyAt ind x
  | ind, .cons x (.cons y ys) =>
      pad ind ++ stringifyAt ind x ++ ",\n" ++ stringifyItems ind (JsonArr.cons y ys)

/-- Comma-and-newline separated object fields, each on its own indented line. -/
def stringifyFields : Nat → JsonObj → String
  | _, .onil => ""
  | ind, .ocons k v .onil => pad ind ++ "\"" ++ k ++ "\": " ++ stringifyAt ind v
  | ind, .ocons k v (.ocons k2 v2 fs) =>
      pad ind ++ "\"" ++ k ++ "\": " ++ stringifyAt ind v ++ ",\n" ++
        stringifyFields ind (JsonObj.ocons k2 v2 fs)
end

/-- Top-level `JSON.stringify(x, null, 2)`. -/
def stringify (j : Json) : String :=
  stringifyAt 0 j

/-- One item emitted to the terminal by a command, mirroring the helpers of
src/utils/output.ts.  `errorMsg` and `errLine` go to standard error; the rest
go to standard output.  `emptyStateOut m` renders as the single dimmed line
"  (m)"; `headerOut t` renders as a blank line, the title and an underline;
`tableOut` renders an aligned box-drawing table of the stringified cells;
`jsonOut j` renders as `stringify j`. -/
inductive Out where
  | success : String → Out
  | errorMsg : String → Out
  | warnMsg : String → Out
  | infoMsg : String → Out
  | labelOut : String → String → Out
  | headerOut : String → Out
  | tableOut : List String → List (List String) → Out
  | jsonOut : Json → Out
  | emptyStateOut : String → Out
  | line : String → Out
  | errLine : String → Out

/-- Date parsing plus locale formatting, abstracted as identity on the raw
timestamp string: no claim depends on the locale rendering of a date. -/
def dateLocale (s : String) : String := s

/-! ## src/utils/api.ts -/

/-- `getServerUrl`: `process.env.ARCHITECT_SERVER || "http://localhost:3001"`.
The environment is passed explicitly; the source reads it on every call. -/
def getServerUrl (env : Option String) : String :=
  jsOrStr env "http://localhost:3001"

/-- The axios instance configuration captured by `axios.create`. -/
structure Client where
  baseURL : String
  timeout : Nat
  contentType : String
deriving DecidableEq

/-- The client that `createClient` builds when none is cached. -/
def mkClient (env : Option String) : Client :=
  { baseURL := getServerUrl env ++ "/api"
    timeout := 15000
    contentType := "application/json" }

/-- `createClient`: returns the cached instance when present, otherwise builds
one from the current environment and caches it.  The module-level mutable
`client` variable is threaded explicitly as `Option Client`. -/
def createClient (env : Option String) : Option Client → Client × Option Client
  | some c => (c, some c)
  | none => (mkClient env, some (mkClient env))

/-- `resetClient`: clears the cached instance. -/
def resetClient (_st : Option Client) : Option Client :=
  none

/-- The `err.response` part of an `AxiosError`: HTTP status plus the
`error`/`message` fields of the parsed response body (absent when the body
lacks them). -/
structure ErrResponse where
  status : Nat
  dataError : Option String
  dataMessage : Option String

/-- An `AxiosError`: optional transport error code, optional HTTP error
response, and the transport-level message. -/
structure AxiosFailure where
  code : Option String
  response : Option ErrResponse
  message : String

/-- What a request helper catches: an `AxiosError`, or any other thrown
error (carrying only its message, as `formatError` passes such values
through unchanged). -/
inductive RequestFailure where
  | axios : AxiosFailure → RequestFailure
  | other : String → RequestFailure

/-- `formatError`: normalizes a caught failure into the single human-readable
message of the `Error` the helper rethrows.  No structured code survives. -/
def formatError (env : Option String) : RequestFailure → String
  | .axios e =>
    if e.code == some "ECONNREFUSED" || e.code == some "ECONNRESET" then
      "Cannot connect to Architect server at " ++ getServerUrl env ++ ".\n" ++
        "Make sure the server is running or set ARCHITECT_SERVER env variable."
    else
      match e.response with
      | some r =>
          "Server error (" ++ toString r.status ++ "): " ++
            jsOrStr r.dataError (jsOrStr r.dataMessage e.message)
      | none => "Request failed: " ++ e.message
  | .other m => m

/-- `apiGet`: returns the response body on success, rethrows
`formatError err` on failure.  The transport outcome is a parameter. -/
def apiGet {α : Type} (env : Option String) :
    Except RequestFailure α → Except String α
  | .ok a => .ok a
  | .error e => .error (formatError env e)

/-- `apiPost`: same normalization as `apiGet`. -/
def apiPost {α : Type} (env : Option String) :
    Except RequestFailure α → Except String α
  | .ok a => .ok a
  | .error e => .error (formatError env e)

/-- `apiDelete`: same normalization as `apiGet`. -/
def apiDelete {α : Type} (env : Option String) :
    Except RequestFailure α → Except String α
  | .ok a => .ok a
  | .error e => .error (formatError env e)

/-! ## src/utils/spinner.ts -/

/-- Terminal spinner events produced by `withSpinner`. -/
inductive SpinnerEv where
  | start : String → SpinnerEv
  | stop : SpinnerEv
  | fail : SpinnerEv
deriving DecidableEq

/-- `withSpinner(text, fn)`: starts the spinner, runs the operation, stops on
success and returns the result, marks failed and rethrows on error.  The
operation's outcome is the `Except` argument; the spinner trace is returned
alongside the untouched outcome. -/
def withSpinner {ε α : Type} (text : String) (fn : Except ε α) :
    List SpinnerEv × Except ε α :=
  match fn with
  | .ok a => ([.start text, .stop], .ok a)
  | .error e => ([.start text, .fail], .error e)

/-- The shared try/catch template of every command action: on a rethrown
request error, print it with `out.error` and exit 1; otherwise run the body
on the fetched data. -/
def catchWrap {α : Type} (body : α → List Out × Nat) :
    Except String α → List Out × Nat
  | .ok a => body a
  | .error msg => ([Out.errorMsg msg], 1)

/-! ## src/commands/tools.ts -/

structure RateLimit where
  maxCallsPerMinute : Nat
  maxCallsPerHour : Nat

/-- The `Tool` interface of tools.ts; optional fields are `Option`. The
`capabilities` entries carry only their `type` field. -/
structure Tool where
  name : String
  description : String
  version : Int
  active : Bool
  category : Option String
  tags : Option (List String)
  capabilities : Option (List String)
  createdAt : String
  updatedAt : String
  code : Option String
  schema : Option Json
  rateLimit : Option RateLimit
  dependencies : Option (List String)
  author : Option String

/-- The `Stats` interface of tools.ts.  The counters are naturals; the
average duration is modelled as a natural (its float formatting is
immaterial to every claim). -/
structure Stats where
  totalCalls : Nat
  successfulCalls : Nat
  failedCalls : Nat
  averageDurationMs : Nat
  lastExecutedAt : Option String

def toolToJson (t : Tool) : Json :=
  .obj (JsonObj.ofList (
    [("name", .str t.name), ("description", .str t.description),
     ("version", .num t.version), ("active", .bool t.active)] ++
    optField "category" (t.category.map .str) ++
    optField "tags" (t.tags.map (fun l => .arr (JsonArr.ofList (l.map .str)))) ++
    optField "capabilities" (t.capabilities.map (fun l =>
      .arr (JsonArr.ofList (l.map (fun ty => .obj (JsonObj.ocons "type" (.str ty) .onil)))))) ++
    [("createdAt", .str t.createdAt), ("updatedAt", .str t.updatedAt)] ++
    optField "code" (t.code.map .str) ++
    optField "schema" t.schema ++
    optField "rateLimit" (t.rateLimit.map (fun r =>
      .obj (JsonObj.ofList [("maxCallsPerMinute", .num (r.maxCallsPerMinute : Int)),
                            ("maxCallsPerHour", .num (r.maxCallsPerHour : Int))]))) ++
    optField "dependencies" (t.dependencies.map (fun l => .arr (JsonArr.ofList (l.map .str)))) ++
    optField "author" (t.author.map .str)))

structure ToolsListOpts where
  active : Bool
  category : Option String
  tag : Option String
  json : Bool

/-- The three sequential client-side filters of the tools list action
(lines 51-54 of tools.ts).  Each flag is tested with JavaScript truthiness
before its filter is applied; a missing `tags` array fails the tag test. -/
def toolsListFilter (opts : ToolsListOpts) (data : List Tool) : List Tool :=
  let f1 := if opts.active then data.filter (fun t => t.active) else data
  let f2 := match truthyStr opts.category with
    | some c => f1.filter (fun t => t.category == some c)
    | none => f1
  let f3 := match truthyStr opts.tag with
    | some tg => f2.filter (fun t =>
        match t.tags with
        | some ts => ts.contains tg
        | none => false)
    | none => f2
  f3

/-- The specification's single conjunctive predicate for tools list: active
when requested, category equality when a category was supplied, tag
membership when a tag was supplied. -/
def toolsListConj (opts : ToolsListOpts) (t : Tool) : Bool :=
  (!opts.active || t.active) &&
  (match truthyStr opts.category with
   | some c => t.category == some c
   | none => true) &&
  (match truthyStr opts.tag with
   | some tg =>
     (match t.tags with
      | some ts => ts.contains tg
      | none => false)
   | none => true)

def toolRow (t : Tool) : List String :=
  [t.name,
   if t.active then "active" else "inactive",
   "v" ++ toString t.version,
   jsOrStr t.category "other",
   (let j := String.intercalate " " ((t.tags.getD []).map (fun tag => "#" ++ tag))
    if j = "" then "none" else j)]

def toolsListAction (opts : ToolsListOpts) :
    Except String (List Tool) → List Out × Nat :=
  catchWrap (fun data =>
    let filtered := toolsListFilter opts data
    if opts.json then
      ([Out.jsonOut (.arr (JsonArr.ofList (filtered.map toolToJson)))], 0)
    else if filtered.length = 0 then
      ([Out.emptyStateOut "no tools found"], 0)
    else
      ([Out.headerOut ("Tools (" ++ toString filtered.length ++ ")"),
        Out.tableOut ["Name", "Status", "Version", "Category", "Tags"]
          (filtered.map toolRow)], 0))

/-- JavaScript numbers for the success-rate computation: finite, NaN, or a
signed infinity (division never throws). -/
inductive JSNum where
  | num : ℚ → JSNum
  | nan : JSNum
  | inf : JSNum
  | negInf : JSNum

/-- JavaScript division: `0/0` is NaN, `x/0` a signed infinity. -/
def jsDiv (a b : ℚ) : JSNum :=
  if b = 0 then (if a = 0 then .nan else if a > 0 then .inf else .negInf)
  else .num (a / b)

/-- Multiplication of a JS number by the literal 100. -/
def jsMul100 : JSNum → JSNum
  | .num q => .num (q * 100)
  | .nan => .nan
  | .inf => .inf
  | .negInf => .negInf

/-- `q.toFixed(1)` for a nonnegative rational: round half up to one decimal
place.  (The binary-double representation of JavaScript numbers is not
modelled; no claim depends on its rounding artifacts.) -/
def toFixed1 (q : ℚ) : String :=
  let n : Int := (q.num * 20 + (q.den : Int)) / (2 * (q.den : Int))
  toString (n / 10) ++ "." ++ toString (n % 10)

def jsToFixed1 : JSNum → String
  | .num q => toFixed1 q
  | .nan => "NaN"
  | .inf => "Infinity"
  | .negInf => "-Infinity"

/-- The per-entry success-rate string computed at lines 167-169 of tools.ts:
`totalCalls > 0 ? ((successfulCalls / totalCalls) * 100).toFixed(1) + "%"
: "0%"`. -/
def rateStr (s : Stats) : String :=
  if s.totalCalls > 0 then
    jsToFixed1 (jsMul100 (jsDiv (s.successfulCalls : ℚ) (s.totalCalls : ℚ))) ++ "%"
  else "0%"

/-- One rendered stats table row.  Faithful to the source: the action
computes `rate` for each entry and then builds the row WITHOUT it — the
returned cells are exactly tool name, call counters, average duration and
last run. -/
def statsRow (e : String × Stats) : List String :=
  let rate := rateStr e.2
  let _ := rate
  [e.1,
   toString e.2.totalCalls,
   toString e.2.successfulCalls,
   if e.2.failedCalls > 0 then toString e.2.failedCalls else "0",
   toString e.2.averageDurationMs ++ "ms",
   (match truthyStr e.2.lastExecutedAt with
    | some d => dateLocale d
    | none => "never")]

/-- JavaScript property lookup `data[name]` on the parsed stats mapping,
modelled as an association list in response order. -/
def assocLookup (n : String) : List (String × Stats) → Option Stats
  | [] => none
  | p :: t => if p.1 == n then some p.2 else assocLookup n t

def statsToJson (s : Stats) : Json :=
  .obj (JsonObj.ofList (
    [("totalCalls", .num (s.totalCalls : Int)),
     ("successfulCalls", .num (s.successfulCalls : Int)),
     ("failedCalls", .num (s.failedCalls : Int)),
     ("averageDurationMs", .num (s.averageDurationMs : Int))] ++
    optField "lastExecutedAt" (s.lastExecutedAt.map .str)))

/-- The object expression `{ [name]: data[name] }`: its single field is
dropped by JSON serialization when the lookup is `undefined`, leaving the
empty object. -/
def statsSingle (n : String) (data : List (String × Stats)) : Json :=
  match assocLookup n data with
  | some s => .obj (JsonObj.ocons n (statsToJson s) .onil)
  | none => .obj .onil

structure StatsOpts where
  json : Bool

/-- The table-path entry list: `name ? entries.filter(k === name) : entries`
with JavaScript truthiness on `name`. -/
def statsEntries (name : Option String) (data : List (String × Stats)) :
    List (String × Stats) :=
  match truthyStr name with
  | some n => data.filter (fun p => p.1 == n)
  | none => data

def toolsStatsAction (name : Option String) (opts : StatsOpts) :
    Except String (List (String × Stats)) → List Out × Nat :=
  catchWrap (fun data =>
    if opts.json then
      ([Out.jsonOut (match truthyStr name with
        | some n => statsSingle n data
        | none => .obj (JsonObj.ofList (data.map (fun p => (p.1, statsToJson p.2)))))], 0)
    else
      let entries := statsEntries name data
      if entries.length = 0 then
        ([Out.emptyStateOut (match truthyStr name with
          | some n => "no stats for \x27" ++ n ++ "\x27"
          | none => "no execution stats yet")], 0)
      else
        ([Out.headerOut "Execution Stats",
          Out.tableOut ["Tool", "Total", "Success", "Failed", "Avg Duration", "Last Run"]
            (entries.map statsRow)], 0))

/-! ## src/commands/marketplace.ts -/

/-- The `MarketplaceEntry` interface.  `tags` is typed `string[]` but every
access guards it with `(e.tags || [])`, so it is optional at runtime;
`ownerLogin` embeds the `owner_login` field. -/
structure MarketplaceEntry where
  id : String
  name : String
  description : String
  author : String
  version : String
  category : String
  tags : Option (List String)
  exportedAt : String
  ownerLogin : Option String

def marketplaceEntryToJson (e : MarketplaceEntry) : Json :=
  .obj (JsonObj.ofList (
    [("id", .str e.id), ("name", .str e.name),
     ("description", .str e.description), ("author", .str e.author),
     ("version", .str e.version), ("category", .str e.category)] ++
    optField "tags" (e.tags.map (fun l => .arr (JsonArr.ofList (l.map .str)))) ++
    [("exportedAt", .str e.exportedAt)] ++
    optField "owner_login" (e.ownerLogin.map .str)))

/-- The rendered tags cell: hash-prefixed tags joined by spaces, the empty
join falling back (JS truthiness) to "none". -/
def mpTagsCell (e : MarketplaceEntry) : String :=
  let j := String.intercalate " " ((e.tags.getD []).map (fun t => "#" ++ t))
  if j = "" then "none" else j

def mpListRow (e : MarketplaceEntry) : List String :=
  [e.name, "v" ++ e.version, e.author, e.category, mpTagsCell e]

/-- Options of the commands whose only flag is --json. -/
structure JsonOnlyOpts where
  json : Bool

def mpListAction (opts : JsonOnlyOpts) :
    Except String (List MarketplaceEntry) → List Out × Nat :=
  catchWrap (fun data =>
    if opts.json then
      ([Out.jsonOut (.arr (JsonArr.ofList (data.map marketplaceEntryToJson)))], 0)
    else if data.length = 0 then
      ([Out.emptyStateOut "local marketplace is empty"], 0)
    else
      ([Out.headerOut ("Local Marketplace (" ++ toString data.length ++ ")"),
        Out.tableOut ["Name", "Version", "Author", "Category", "Tags"]
          (data.map mpListRow)], 0))

structure BrowseOpts where
  query : Option String
  category : Option String
  json : Bool

def mpBrowseRow (e : MarketplaceEntry) : List String :=
  [e.name, "v" ++ e.version, jsOrStr e.ownerLogin e.author, e.category, mpTagsCell e]

def mpBrowseAction (opts : BrowseOpts) :
    Except String (List MarketplaceEntry) → List Out × Nat :=
  catchWrap (fun data =>
    if opts.json then
      ([Out.jsonOut (.arr (JsonArr.ofList (data.map marketplaceEntryToJson)))], 0)
    else if data.length = 0 then
      ([Out.emptyStateOut (match truthyStr opts.query with
        | some q => "no tools matching \x27" ++ q ++ "\x27"
        | none => "remote marketplace is empty")], 0)
    else
      ([Out.headerOut ("Remote Marketplace (" ++ toString data.length ++ ")"),
        Out.tableOut ["Name", "Version", "Author", "Category", "Tags"]
          (data.map mpBrowseRow),
        Out.line "",
        Out.infoMsg "Install a tool with: architect marketplace install <name>"], 0))

/-- One detail block of the search rendering. -/
def mpSearchBlock (e : MarketplaceEntry) : List Out :=
  [Out.line "",
   Out.line (e.name ++ " v" ++ e.version ++ " by " ++ jsOrStr e.ownerLogin e.author),
   Out.line ("  " ++ e.description),
   Out.line ("  " ++ String.intercalate " " ((e.tags.getD []).map (fun t => "#" ++ t)))]

def mpSearchAction (query : String) (opts : JsonOnlyOpts) :
    Except String (List MarketplaceEntry) → List Out × Nat :=
  catchWrap (fun data =>
    if opts.json then
      ([Out.jsonOut (.arr (JsonArr.ofList (data.map marketplaceEntryToJson)))], 0)
    else if data.length = 0 then
      ([Out.emptyStateOut ("no tools found matching \x27" ++ query ++ "\x27")], 0)
    else
      ([Out.headerOut ("Search Results for \x27" ++ query ++ "\x27 (" ++
          toString data.length ++ ")")] ++
        (data.map mpSearchBlock).flatten ++
        [Out.line "", Out.infoMsg "Install with: architect marketplace install <name>"], 0))

structure InstallOpts where
  overwrite : Bool

/-- The single POST request of marketplace install. -/
structure InstallRequest where
  endpoint : String
  id : String
  overwrite : Bool
deriving DecidableEq

/-- The request body built at lines 516-519 of the marketplace command file:
`{id: name, overwrite: opts.overwrite || false}`. -/
def mpInstallRequest (name : String) (opts : InstallOpts) : InstallRequest :=
  { endpoint := "marketplace/install", id := name, overwrite := (opts.overwrite || false) }

/-- The install response body: typed `{success, message}`, the message
possibly absent at runtime (the source falls back over it). -/
structure InstallResponse where
  success : Bool
  message : Option String

def mpInstallAction (name : String) (result : Except String InstallResponse) :
    List Out × Nat :=
  catchWrap (fun r =>
    if r.success then
      ([Out.success ("Tool \x27" ++ name ++ "\x27 installed successfully"),
        Out.infoMsg "Run \x27architect tools list\x27 to see it"], 0)
    else
      ([Out.errorMsg (jsOrStr r.message ("Failed to install \x27" ++ name ++ "\x27"))], 1))
    result

/-! ## src/commands/server.ts -/

/-- The `server status` action: any successful overview fetch is "running";
a failure whose message contains "Cannot connect" gets the specific
"not running" rendering, any other failure the generic message. -/
def serverStatusAction (env : Option String) (result : Except String Unit) :
    List Out × Nat :=
  match result with
  | .ok _ => ([Out.success ("Server is running at " ++ getServerUrl env)], 0)
  | .error msg =>
    if hasSubstr msg "Cannot connect" then
      ([Out.errorMsg ("Server is not running at " ++ getServerUrl env),
        Out.line "  Set ARCHITECT_SERVER env variable to change the URL"], 1)
    else ([Out.errorMsg msg], 1)

structure AuditEntry where
  timestamp : String
  action : String
  toolName : String
  duration : Option Nat
  details : Option Json

def auditToJson (a : AuditEntry) : Json :=
  .obj (JsonObj.ofList (
    [("timestamp", .str a.timestamp), ("action", .str a.action),
     ("toolName", .str a.toolName)] ++
    optField "duration" (a.duration.map (fun d => .num (d : Int))) ++
    optField "details" a.details))

/-- One audit log row; a falsy (absent or zero) duration renders as a dash. -/
def auditRow (a : AuditEntry) : List String :=
  [dateLocale a.timestamp, a.action, a.toolName,
   (match truthyNat a.duration with
    | some d => toString d ++ "ms"
    | none => "—")]

def serverLogsAction (opts : JsonOnlyOpts) :
    Except String (List AuditEntry) → List Out × Nat :=
  catchWrap (fun data =>
    if opts.json then
      ([Out.jsonOut (.arr (JsonArr.ofList (data.map auditToJson)))], 0)
    else if data.length = 0 then
      ([Out.emptyStateOut "no audit logs yet"], 0)
    else
      ([Out.headerOut ("Audit Logs (" ++ toString data.length ++ ")"),
        Out.tableOut ["Time", "Action", "Tool", "Duration"] (data.map auditRow)], 0))

/-- A permissions record; capability entries carry only their `type`. -/
structure Permission where
  toolName : String
  toolVersion : Int
  approvedCapabilities : List String
  approvedAt : String

def permissionToJson (p : Permission) : Json :=
  .obj (JsonObj.ofList
    [("toolName", .str p.toolName), ("toolVersion", .num p.toolVersion),
     ("approvedCapabilities", .arr (JsonArr.ofList (p.approvedCapabilities.map
       (fun ty => .obj (JsonObj.ocons "type" (.str ty) .onil))))),
     ("approvedAt", .str p.approvedAt)])

def permissionRow (p : Permission) : List String :=
  [p.toolName, "v" ++ toString p.toolVersion,
   String.intercalate ", " p.approvedCapabilities,
   dateLocale p.approvedAt]

def serverPermissionsAction (opts : JsonOnlyOpts) :
    Except String (List Permission) → List Out × Nat :=
  catchWrap (fun data =>
    if opts.json then
      ([Out.jsonOut (.arr (JsonArr.ofList (data.map permissionToJson)))], 0)
    else if data.length = 0 then
      ([Out.emptyStateOut "no permissions configured"], 0)
    else
      ([Out.headerOut ("Permissions (" ++ toString data.length ++ ")"),
        Out.tableOut ["Tool", "Version", "Capabilities", "Approved At"]
          (data.map permissionRow)], 0))

structure Schedule where
  id : String
  toolName : String
  cron : String
  enabled : Bool
  lastRun : Option String
  nextRun : Option String

def scheduleToJson (s : Schedule) : Json :=
  .obj (JsonObj.ofList (
    [("id", .str s.id), ("toolName", .str s.toolName), ("cron", .str s.cron),
     ("enabled", .bool s.enabled)] ++
    optField "lastRun" (s.lastRun.map .str) ++
    optField "nextRun" (s.nextRun.map .str)))

/-- JavaScript `s.substring(0, n)`. -/
def strTake (s : String) (n : Nat) : String :=
  String.mk (s.toList.take n)

def scheduleRow (s : Schedule) : List String :=
  [strTake s.id 16 ++ "...",
   s.toolName, s.cron,
   if s.enabled then "enabled" else "disabled",
   (match truthyStr s.lastRun with
    | some d => dateLocale d
    | none => "never"),
   (match truthyStr s.nextRun with
    | some d => dateLocale d
    | none => "n/a")]

def serverSchedulesAction (opts : JsonOnlyOpts) :
    Except String (List Schedule) → List Out × Nat :=
  catchWrap (fun data =>
    if opts.json then
      ([Out.jsonOut (.arr (JsonArr.ofList (data.map scheduleToJson)))], 0)
    else if data.length = 0 then
      ([Out.emptyStateOut "no schedules configured"], 0)
    else
      ([Out.headerOut ("Schedules (" ++ toString data.length ++ ")"),
        Out.tableOut ["ID", "Tool", "Cron", "Status", "Last Run", "Next Run"]
          (data.map scheduleRow)], 0))

structure Webhook where
  id : String
  toolName : String
  path : String
  method : String
  enabled : Bool
  secret : Option String

def webhookToJson (w : Webhook) : Json :=
  .obj (JsonObj.ofList (
    [("id", .str w.id), ("toolName", .str w.toolName), ("path", .str w.path),
     ("method", .str w.method), ("enabled", .bool w.enabled)] ++
    optField "secret" (w.secret.map .str)))

def webhookRow (w : Webhook) : List String :=
  [strTake w.id 12 ++ "...",
   w.toolName,
   "/webhook" ++ w.path,
   w.method,
   if w.enabled then "enabled" else "disabled",
   (match truthyStr w.secret with
    | some _ => "✓"
    | none => "—")]

def serverWebhooksAction (opts : JsonOnlyOpts) :
    Except String (List Webhook) → List Out × Nat :=
  catchWrap (fun data =>
    if opts.json then
      ([Out.jsonOut (.arr (JsonArr.ofList (data.map webhookToJson)))], 0)
    else if data.length = 0 then
      ([Out.emptyStateOut "no webhooks configured"], 0)
    else
      ([Out.headerOut ("Webhooks (" ++ toString data.length ++ ")"),
        Out.tableOut ["ID", "Tool", "Path", "Method", "Status", "Secret"]
          (data.map webhookRow)], 0))

/-- A pipeline record; step entries carry only their `tool`. -/
structure Pipeline where
  name : String
  description : String
  steps : List String

def pipelineToJson (p : Pipeline) : Json :=
  .obj (JsonObj.ofList
    [("name", .str p.name), ("description", .str p.description),
     ("steps", .arr (JsonArr.ofList (p.steps.map
       (fun t => .obj (JsonObj.ocons "tool" (.str t) .onil)))))])

def pipelineRow (p : Pipeline) : List String :=
  [p.name, p.description,
   toString p.steps.length ++ " → " ++ String.intercalate " → " p.steps]

def serverPipelinesAction (opts : JsonOnlyOpts) :
    Except String (List Pipeline) → List Out × Nat :=
  catchWrap (fun data =>
    if opts.json then
      ([Out.jsonOut (.arr (JsonArr.ofList (data.map pipelineToJson)))], 0)
    else if data.length = 0 then
      ([Out.emptyStateOut "no pipelines defined"], 0)
    else
      ([Out.headerOut ("Pipelines (" ++ toString data.length ++ ")"),
        Out.tableOut ["Name", "Description", "Steps"] (data.map pipelineRow)], 0))

/-- One element of the secrets response.  The source types the response as
name/createdAt/updatedAt records, but the runtime value is whatever JSON the
server sent: `extra` carries any additional fields (such as a plaintext
`value`) a malformed response might include, after the declared ones. -/
structure SecretEntry where
  name : String
  createdAt : String
  updatedAt : String
  extra : List (String × Json)

def secretToJson (s : SecretEntry) : Json :=
  .obj (JsonObj.ofList (
    [("name", .str s.name), ("createdAt", .str s.createdAt),
     ("updatedAt", .str s.updatedAt)] ++ s.extra))

/-- One secrets table row: only the name and the two timestamps flow in. -/
def secretRow (s : SecretEntry) : List String :=
  [s.name, dateLocale s.createdAt, dateLocale s.updatedAt]

def serverSecretsAction (opts : JsonOnlyOpts) :
    Except String (List SecretEntry) → List Out × Nat :=
  catchWrap (fun data =>
    if opts.json then
      ([Out.jsonOut (.arr (JsonArr.ofList (data.map secretToJson)))], 0)
    else if data.length = 0 then
      ([Out.emptyStateOut "no secrets stored"], 0)
    else
      ([Out.headerOut ("Secrets (" ++ toString data.length ++ ")"),
        Out.infoMsg "Secret values are never displayed",
        Out.line "",
        Out.tableOut ["Name", "Created", "Updated"] (data.map secretRow)], 0))

/-! ## src/index.ts -/

/-- The top-level `status` command: inline console output, and a bare catch
that prints the "not running" line for every failure. -/
def topStatusAction (env : Option String) (result : Except String Unit) :
    List Out × Nat :=
  match result with
  | .ok _ => ([Out.line ("✓ Server is running at " ++ getServerUrl env)], 0)
  | .error _ => ([Out.errLine ("✗ Server is not running at " ++ getServerUrl env)], 1)

/-! ## Claims -/

/-- The malformed secrets response of the C1 failing input: one entry whose
extra field carries a plaintext secret value. -/
def leakSecretEntry : SecretEntry :=
  { name := "API_KEY"
    createdAt := "2024-01-01T00:00:00Z"
    updatedAt := "2024-01-02T00:00:00Z"
    extra := [("value", Json.str "hunter2")] }

/-- Claim C1 (code bug, evaluated at the failing input): on a secrets
response whose entry carries an extra plaintext `value` field, the --json
path of `server secrets` emits the raw response and its serialization
contains the secret value "hunter2" — while the table path renders exactly
the name and the two timestamps.  The command's own description promises
that values are never shown. -/
theorem server_secrets_json_leaks_value :
    (serverSecretsAction ⟨true⟩ (.ok [leakSecretEntry])).1 =
      [Out.jsonOut (Json.arr (JsonArr.ofList [secretToJson leakSecretEntry]))] ∧
    hasSubstr (stringify (Json.arr (JsonArr.ofList [secretToJson leakSecretEntry])))
      "hunter2" = true ∧
    serverSecretsAction ⟨false⟩ (.ok [leakSecretEntry]) =
      ([Out.headerOut "Secrets (1)",
        Out.infoMsg "Secret values are never displayed",
        Out.line "",
        Out.tableOut ["Name", "Created", "Updated"]
          [["API_KEY", "2024-01-01T00:00:00Z", "2024-01-02T00:00:00Z"]]], 0) :=
  ⟨rfl, rfl, rfl⟩

/-- Claim C9: withSpinner forwards the wrapped operation's outcome exactly —
the same value on success, the very same error on failure — adding only the
spinner trace; it never swallows or transforms an error. -/
theorem with_spinner_transparent {ε α : Type} :
    ∀ (text : String) (fn : Except ε α),
      (withSpinner text fn).2 = fn ∧
      (withSpinner text fn).1 =
        (match fn with
         | .ok _ => [SpinnerEv.start text, SpinnerEv.stop]
         | .error _ => [SpinnerEv.start text, SpinnerEv.fail]) := by
  intro text fn
  cases fn <;> simp [withSpinner]

/-- Claim C7 counterexample: on an HTTP-error failure (message without
"Cannot connect"), the top-level status command still prints the specific
"Server is not running" line instead of the generic error message; the
`server status` subcommand, by contrast, prints the generic message. -/
theorem top_status_counterexample :
    hasSubstr "Server error (500): boom" "Cannot connect" = false ∧
    topStatusAction none (.error "Server error (500): boom") =
      ([Out.errLine "✗ Server is not running at http://localhost:3001"], 1) ∧
    serverStatusAction none (.error "Server error (500): boom") =
      ([Out.errorMsg "Server error (500): boom"], 1) :=
  ⟨rfl, rfl, rfl⟩

/-- Claim C7 (amended): both commands treat any successful overview fetch as
"server running" with exit 0; on failure, `server status` distinguishes a
connection-refused message from other errors, while the top-level `status`
prints the "Server is not running" line for every failure, and both exit
1 on failure. -/
theorem status_commands_behavior :
    ∀ (env : Option String) (msg : String),
      serverStatusAction env (.ok ()) =
        ([Out.success ("Server is running at " ++ getServerUrl env)], 0) ∧
      (hasSubstr msg "Cannot connect" = true →
        serverStatusAction env (.error msg) =
          ([Out.errorMsg ("Server is not running at " ++ getServerUrl env),
            Out.line "  Set ARCHITECT_SERVER env variable to change the URL"], 1)) ∧
      (hasSubstr msg "Cannot connect" = false →
        serverStatusAction env (.error msg) = ([Out.errorMsg msg], 1)) ∧
      topStatusAction env (.ok ()) =
        ([Out.line ("✓ Server is running at " ++ getServerUrl env)], 0) ∧
      topStatusAction env (.error msg) =
        ([Out.errLine ("✗ Server is not running at " ++ getServerUrl env)], 1) := by
  intro env msg
  refine ⟨rfl, ?_, ?_, rfl, rfl⟩
  · intro h
    simp [serverStatusAction, h]
  · intro h
    simp [serverStatusAction, h]

/-- Witness for the amended C7 statement at concrete inputs. -/
theorem status_commands_behavior_witness :
    serverStatusAction none (.error "Cannot connect to Architect server at X") =
      ([Out.errorMsg "Server is not running at http://localhost:3001",
        Out.line "  Set ARCHITECT_SERVER env variable to change the URL"], 1) ∧
    serverStatusAction none (.error "boom") = ([Out.errorMsg "boom"], 1) :=
  ⟨((status_commands_behavior none "Cannot connect to Architect server at X").2.1 rfl),
   ((status_commands_behavior none "boom").2.2.1 rfl)⟩

/-- Claim C8 counterexample: with ARCHITECT_SERVER set (to the empty
string), getServerUrl does not return the set value but the default — the
|| fallback tests truthiness, not presence. -/
theorem get_server_url_empty_env :
    getServerUrl (some "") = "http://localhost:3001" ∧
    "http://localhost:3001" ≠ "" :=
  ⟨rfl, by decide⟩

/-- Claim C8 (amended): getServerUrl returns the environment value exactly
when it is set to a nonempty string and the default otherwise, resolving on
every call; createClient returns the cached instance unchanged whatever the
current environment, builds and caches one from the current environment
otherwise (capturing the URL at construction); resetClient makes the next
construction re-resolve the then-current URL. -/
theorem client_singleton_behavior :
    ∀ (env env2 : Option String) (s : String) (c : Client) (st : Option Client),
      (s ≠ "" → getServerUrl (some s) = s) ∧
      getServerUrl none = "http://localhost:3001" ∧
      getServerUrl (some "") = "http://localhost:3001" ∧
      createClient env (some c) = (c, some c) ∧
      createClient env none = (mkClient env, some (mkClient env)) ∧
      (mkClient env).baseURL = getServerUrl env ++ "/api" ∧
      createClient env2 (resetClient st) = (mkClient env2, some (mkClient env2)) := by
  intro env env2 s c st
  refine ⟨?_, rfl, rfl, rfl, rfl, rfl, rfl⟩
  intro h
  simp [getServerUrl, jsOrStr, h]

/-- Witness for the amended C8 statement at concrete inputs. -/
theorem client_singleton_behavior_witness :
    getServerUrl (some "http://example.com:9") = "http://example.com:9" ∧
    createClient (some "http://example.com:9")
        (some { baseURL := "http://localhost:3001/api", timeout := 15000,
                contentType := "application/json" }) =
      ({ baseURL := "http://localhost:3001/api", timeout := 15000,
         contentType := "application/json" },
       some { baseURL := "http://localhost:3001/api", timeout := 15000,
              contentType := "application/json" }) :=
  ⟨((client_singleton_behavior none none "http://example.com:9"
      ⟨"", 0, ""⟩ none).1 (by decide)),
   ((client_singleton_behavior (some "http://example.com:9") none ""
      { baseURL := "http://localhost:3001/api", timeout := 15000,
        contentType := "application/json" } none).2.2.2.1)⟩

/-- Claim C3: marketplace install sends one POST whose body is exactly
`{id: name, overwrite}`; the command succeeds (success line plus the
tools-list hint, exit 0) exactly when the response body's `success` flag is
true; on `success: false` it prints the response message — or the default
failure message when the message is falsy — to standard error and exits 1,
the transport having succeeded. -/
theorem marketplace_install_success_flag :
    ∀ (name : String) (opts : InstallOpts) (r : InstallResponse),
      mpInstallRequest name opts =
        { endpoint := "marketplace/install", id := name, overwrite := opts.overwrite } ∧
      (mpInstallAction name (.ok r) =
          ([Out.success ("Tool \x27" ++ name ++ "\x27 installed successfully"),
            Out.infoMsg "Run \x27architect tools list\x27 to see it"], 0)
        ↔ r.success = true) ∧
      (r.success = false →
        mpInstallAction name (.ok r) =
          ([Out.errorMsg (jsOrStr r.message ("Failed to install \x27" ++ name ++ "\x27"))],
           1)) := by
  intro name opts r
  refine ⟨by simp [mpInstallRequest], ?_, ?_⟩
  · cases h : r.success <;> simp [mpInstallAction, catchWrap, h]
  · intro h
    simp [mpInstallAction, catchWrap, h]

/-- Witness for C3 at the spec's concrete example: a
`{success: false, message: "conflict"}` response exits 1 printing
"conflict", and a `{success: true}` response succeeds. -/
theorem marketplace_install_success_flag_witness :
    mpInstallAction "foo" (.ok { success := false, message := some "conflict" }) =
      ([Out.errorMsg "conflict"], 1) ∧
    mpInstallAction "foo" (.ok { success := true, message := none }) =
      ([Out.success "Tool \x27foo\x27 installed successfully",
        Out.infoMsg "Run \x27architect tools list\x27 to see it"], 0) :=
  ⟨((marketplace_install_success_flag "foo" ⟨false⟩
      { success := false, message := some "conflict" }).2.2 rfl),
   ((marketplace_install_success_flag "foo" ⟨false⟩
      { success := true, message := none }).2.1.mpr rfl)⟩

/-- Claim C4: every failure in apiGet/apiPost/apiDelete is rethrown as a
single error carrying only the human-readable `formatError` message:
connection refused or reset gives the "Cannot connect … set
ARCHITECT_SERVER" message at the freshly resolved URL; an HTTP error
response gives the status code combined with the body's `error` or
`message` field, falling back to the transport message; any other axios
failure gives the generic "Request failed" message with the underlying
detail.  The mapped error type is a bare string: no structured code
survives normalization. -/
theorem api_error_normalization :
    ∀ (env : Option String) (e : AxiosFailure),
      ((e.code = some "ECONNREFUSED" ∨ e.code = some "ECONNRESET") →
        formatError env (.axios e) =
          "Cannot connect to Architect server at " ++ getServerUrl env ++ ".\n" ++
            "Make sure the server is running or set ARCHITECT_SERVER env variable.") ∧
      (∀ r : ErrResponse,
        e.code ≠ some "ECONNREFUSED" → e.code ≠ some "ECONNRESET" →
        e.response = some r →
        formatError env (.axios e) =
          "Server error (" ++ toString r.status ++ "): " ++
            jsOrStr r.dataError (jsOrStr r.dataMessage e.message)) ∧
      (e.code ≠ some "ECONNREFUSED" → e.code ≠ some "ECONNRESET" →
        e.response = none →
        formatError env (.axios e) = "Request failed: " ++ e.message) ∧
      (∀ (α : Type) (fe : RequestFailure),
        @apiGet α env (.error fe) = .error (formatError env fe) ∧
        @apiPost α env (.error fe) = .error (formatError env fe) ∧
        @apiDelete α env (.error fe) = .error (formatError env fe)) := by
  intro env e
  refine ⟨?_, ?_, ?_, ?_⟩
  · intro h
    rcases h with h | h <;> simp [formatError, h]
  · intro r h1 h2 h3
    simp [formatError, h1, h2, h3]
  · intro h1 h2 h3
    simp [formatError, h1, h2, h3]
  · intro α fe
    exact ⟨rfl, rfl, rfl⟩

/-- Witness for C4 at concrete failures: a connection-refused error, an HTTP
500 with a server-supplied error field, and a bare transport failure. -/
theorem api_error_normalization_witness :
    formatError none
        (.axios ⟨some "ECONNREFUSED", none, "connect ECONNREFUSED 127.0.0.1:3001"⟩) =
      "Cannot connect to Architect server at http://localhost:3001.\n" ++
        "Make sure the server is running or set ARCHITECT_SERVER env variable." ∧
    formatError none
        (.axios ⟨none, some ⟨500, some "boom", none⟩,
          "Request failed with status code 500"⟩) =
      "Server error (500): boom" ∧
    formatError none
        (.axios ⟨some "ETIMEDOUT", none, "timeout of 15000ms exceeded"⟩) =
      "Request failed: timeout of 15000ms exceeded" :=
  ⟨((api_error_normalization none
      ⟨some "ECONNREFUSED", none, "connect ECONNREFUSED 127.0.0.1:3001"⟩).1 (Or.inl rfl)),
   ((api_error_normalization none
      ⟨none, some ⟨500, some "boom", none⟩, "Request failed with status code 500"⟩).2.1
     ⟨500, some "boom", none⟩ (by decide) (by decide) rfl),
   ((api_error_normalization none
      ⟨some "ETIMEDOUT", none, "timeout of 15000ms exceeded"⟩).2.2.1
     (by decide) (by decide) rfl)⟩

/-- Claim C2: every collection-returning listing command, invoked without
--json, prints exactly the single empty-state line and exits 0 whenever the
fetched (and, for tools list and tools stats, client-filtered) collection is
empty — the whole output is that one line, so no header and no table are
emitted. -/
theorem listing_empty_state :
    (∀ (opts : ToolsListOpts) (data : List Tool), opts.json = false →
      toolsListFilter opts data = [] →
      toolsListAction opts (.ok data) = ([Out.emptyStateOut "no tools found"], 0)) ∧
    (∀ (name : Option String) (opts : StatsOpts) (data : List (String × Stats)),
      opts.json = false → statsEntries name data = [] →
      toolsStatsAction name opts (.ok data) =
        ([Out.emptyStateOut (match truthyStr name with
          | some n => "no stats for \x27" ++ n ++ "\x27"
          | none => "no execution stats yet")], 0)) ∧
    (∀ opts : JsonOnlyOpts, opts.json = false →
      mpListAction opts (.ok []) = ([Out.emptyStateOut "local marketplace is empty"], 0)) ∧
    (∀ opts : BrowseOpts, opts.json = false →
      mpBrowseAction opts (.ok []) =
        ([Out.emptyStateOut (match truthyStr opts.query with
          | some q => "no tools matching \x27" ++ q ++ "\x27"
          | none => "remote marketplace is empty")], 0)) ∧
    (∀ (query : String) (opts : JsonOnlyOpts), opts.json = false →
      mpSearchAction query opts (.ok []) =
        ([Out.emptyStateOut ("no tools found matching \x27" ++ query ++ "\x27")], 0)) ∧
    (∀ opts : JsonOnlyOpts, opts.json = false →
      serverLogsAction opts (.ok []) = ([Out.emptyStateOut "no audit logs yet"], 0)) ∧
    (∀ opts : JsonOnlyOpts, opts.json = false →
      serverPermissionsAction opts (.ok []) =
        ([Out.emptyStateOut "no permissions configured"], 0)) ∧
    (∀ opts : JsonOnlyOpts, opts.json = false →
      serverSchedulesAction opts (.ok []) =
        ([Out.emptyStateOut "no schedules configured"], 0)) ∧
    (∀ opts : JsonOnlyOpts, opts.json = false →
      serverWebhooksAction opts (.ok []) =
        ([Out.emptyStateOut "no webhooks configured"], 0)) ∧
    (∀ opts : JsonOnlyOpts, opts.json = false →
      serverPipelinesAction opts (.ok []) =
        ([Out.emptyStateOut "no pipelines defined"], 0)) ∧
    (∀ opts : JsonOnlyOpts, opts.json = false →
      serverSecretsAction opts (.ok []) =
        ([Out.emptyStateOut "no secrets stored"], 0)) := by
  refine ⟨?_, ?_, ?_, ?_, ?_, ?_, ?_, ?_, ?_, ?_, ?_⟩
  · intro opts data hj hf
    simp [toolsListAction, catchWrap, hj, hf]
  · intro name opts data hj he
    simp [toolsStatsAction, catchWrap, hj, he]
  · intro opts hj
    simp [mpListAction, catchWrap, hj]
  · intro opts hj
    simp [mpBrowseAction, catchWrap, hj]
  · intro query opts hj
    simp [mpSearchAction, catchWrap, hj]
  · intro opts hj
    simp [serverLogsAction, catchWrap, hj]
  · intro opts hj
    simp [serverPermissionsAction, catchWrap, hj]
  · intro opts hj
    simp [serverSchedulesAction, catchWrap, hj]
  · intro opts hj
    simp [serverWebhooksAction, catchWrap, hj]
  · intro opts hj
    simp [serverPipelinesAction, catchWrap, hj]
  · intro opts hj
    simp [serverSecretsAction, catchWrap, hj]

/-- Witness for C2 at concrete empty collections. -/
theorem listing_empty_state_witness :
    toolsListAction ⟨false, none, none, false⟩ (.ok []) =
      ([Out.emptyStateOut "no tools found"], 0) ∧
    toolsStatsAction none ⟨false⟩ (.ok []) =
      ([Out.emptyStateOut "no execution stats yet"], 0) ∧
    serverSecretsAction ⟨false⟩ (.ok []) =
      ([Out.emptyStateOut "no secrets stored"], 0) :=
  ⟨(listing_empty_state.1 ⟨false, none, none, false⟩ [] rfl rfl),
   (listing_empty_state.2.1 none ⟨false⟩ [] rfl rfl),
   (listing_empty_state.2.2.2.2.2.2.2.2.2.2 ⟨false⟩ rfl)⟩

/-- Claim C5: the tools list output collection equals the fetched list
filtered once by the conjunction of all supplied predicates — active flag,
category equality, tag membership — and is a pure function of the fetched
list and the flags; the --json dump and the table both display exactly that
filtered collection. -/
theorem tools_list_filter_conj :
    ∀ (opts : ToolsListOpts) (data : List Tool),
      toolsListFilter opts data = data.filter (toolsListConj opts) ∧
      (opts.json = true →
        toolsListAction opts (.ok data) =
          ([Out.jsonOut (.arr (JsonArr.ofList
            ((data.filter (toolsListConj opts)).map toolToJson)))], 0)) ∧
      (opts.json = false → data.filter (toolsListConj opts) ≠ [] →
        toolsListAction opts (.ok data) =
          ([Out.headerOut ("Tools (" ++
              toString (data.filter (toolsListConj opts)).length ++ ")"),
            Out.tableOut ["Name", "Status", "Version", "Category", "Tags"]
              ((data.filter (toolsListConj opts)).map toolRow)], 0)) := by
  intro opts data
  have hmain : toolsListFilter opts data = data.filter (toolsListConj opts) := by
    unfold toolsListFilter toolsListConj
    cases hA : opts.active <;> cases hC : truthyStr opts.category <;>
      cases hT : truthyStr opts.tag <;>
        simp [hA, hC, hT, List.filter_filter] <;>
          exact List.filter_congr (fun t _ => by
            cases t.active <;> cases ht : t.tags <;>
              simp [ht, Bool.and_comm, Bool.and_left_comm, Bool.and_assoc])
  refine ⟨hmain, ?_, ?_⟩
  · intro hj
    simp [toolsListAction, catchWrap, hj, hmain]
  · intro hj hne
    have hlen : ¬ (data.filter (toolsListConj opts)).length = 0 := by
      simpa [List.length_eq_zero] using hne
    simp [toolsListAction, catchWrap, hj, hmain, hlen]

/-- A concrete tool used to instantiate the C5 statement. -/
def demoTool : Tool :=
  ⟨"alpha", "demo tool", 1, true, some "c", some ["t"], none,
   "2024-01-01", "2024-01-02", none, none, none, none, none⟩

/-- Witness for C5 at a concrete list and all three filters supplied. -/
theorem tools_list_filter_conj_witness :
    toolsListFilter ⟨true, some "c", some "t", false⟩ [demoTool] = [demoTool] ∧
    toolsListAction ⟨true, some "c", some "t", false⟩ (.ok [demoTool]) =
      ([Out.headerOut "Tools (1)",
        Out.tableOut ["Name", "Status", "Version", "Category", "Tags"]
          [toolRow demoTool]], 0) := by
  have h := tools_list_filter_conj ⟨true, some "c", some "t", false⟩ [demoTool]
  have e : [demoTool].filter (toolsListConj ⟨true, some "c", some "t", false⟩) =
      [demoTool] := rfl
  exact ⟨h.1, h.2.2 rfl (ne_of_eq_of_ne e (List.cons_ne_nil _ _))⟩

/-- A concrete stats entry: 2 successes out of 5 calls. -/
def statsDemo : Stats :=
  { totalCalls := 5, successfulCalls := 2, failedCalls := 3,
    averageDurationMs := 7, lastExecutedAt := none }

/-- Claim C6 (code bug, evaluated at the failing input): the success-rate
string is computed exactly as the claim says — guarded, "40.0%" for 2/5,
the literal "0%" at zero totalCalls, never NaN — but the rendered stats
table displays no success rate at all: the row built right after computing
`rate` omits it and the headers have no rate column. -/
theorem tools_stats_rate_not_displayed :
    rateStr statsDemo = "40.0%" ∧
    rateStr { totalCalls := 0, successfulCalls := 0, failedCalls := 0,
              averageDurationMs := 0, lastExecutedAt := none } = "0%" ∧
    toolsStatsAction none ⟨false⟩ (.ok [("t", statsDemo)]) =
      ([Out.headerOut "Execution Stats",
        Out.tableOut ["Tool", "Total", "Success", "Failed", "Avg Duration", "Last Run"]
          [["t", "5", "2", "3", "7ms", "never"]]], 0) ∧
    hasSubstr (String.intercalate " " (statsRow ("t", statsDemo))) "%" = false := by
  refine ⟨?_, rfl, rfl, rfl⟩
  norm_num [rateStr, jsDiv, jsMul100, jsToFixed1, toFixed1, statsDemo]
  rfl

/-- The guarded division of the success-rate computation never reaches the
non-finite JavaScript values: with a positive totalCalls the computed rate
is the finite percentage successfulCalls * 100 / totalCalls, so the NaN and
infinity renderings are unreachable and the zero case is the literal
"0%". -/
theorem rate_guarded_division :
    ∀ s : Stats,
      (s.totalCalls = 0 → rateStr s = "0%") ∧
      (0 < s.totalCalls →
        jsMul100 (jsDiv (s.successfulCalls : ℚ) (s.totalCalls : ℚ)) =
          JSNum.num ((s.successfulCalls : ℚ) * 100 / (s.totalCalls : ℚ)) ∧
        rateStr s =
          toFixed1 ((s.successfulCalls : ℚ) * 100 / (s.totalCalls : ℚ)) ++ "%") := by
  intro s
  constructor
  · intro h
    simp [rateStr, h]
  · intro h
    have hz : (s.totalCalls : ℚ) ≠ 0 := by
      exact_mod_cast Nat.pos_iff_ne_zero.mp h
    have hmul : jsMul100 (jsDiv (s.successfulCalls : ℚ) (s.totalCalls : ℚ)) =
        JSNum.num ((s.successfulCalls : ℚ) * 100 / (s.totalCalls : ℚ)) := by
      simp [jsDiv, hz, jsMul100, div_mul_eq_mul_div]
    refine ⟨hmul, ?_⟩
    simp [rateStr, h, hmul, jsToFixed1]

/-- Witness for the guarded-division statement at 2 successes of 5 calls
and at the zero-calls entry. -/
theorem rate_guarded_division_witness :
    rateStr { totalCalls := 0, successfulCalls := 0, failedCalls := 0,
              averageDurationMs := 0, lastExecutedAt := some "x" } = "0%" ∧
    rateStr statsDemo = toFixed1 ((2 : ℚ) * 100 / (5 : ℚ)) ++ "%" := by
  refine ⟨(rate_guarded_division _).1 rfl, ?_⟩
  have h := ((rate_guarded_division statsDemo).2 (by decide)).2
  norm_num [statsDemo] at h
  norm_num
  exact h

/-- Key of C10: a name absent from the fetched mapping filters to the empty
entry list on the table path. -/
theorem filter_eq_nil_of_lookup_none (n : String) :
    ∀ data : List (String × Stats), assocLookup n data = none →
      data.filter (fun p => p.1 == n) = [] := by
  intro data
  induction data with
  | nil => intro _; rfl
  | cons p t ih =>
    intro h
    rw [assocLookup] at h
    by_cases hc : p.1 == n
    · simp [hc] at h
    · simp only [hc, if_neg] at h
      simp [List.filter, hc, ih h]

/-- Claim C10: tools stats with --json and a (truthy) name prints the
singleton object for that name and exits 0; when the name is not a key of
the fetched mapping the dropped undefined field leaves the empty object,
whose serialization is exactly the two-character empty-object string — the
--json path emits no empty-state line and no error, whereas the table path
prints the empty-state message on the very same input. -/
theorem tools_stats_json_singleton :
    ∀ (n : String) (data : List (String × Stats)), n ≠ "" →
      toolsStatsAction (some n) ⟨true⟩ (.ok data) =
        ([Out.jsonOut (statsSingle n data)], 0) ∧
      (assocLookup n data = none →
        statsSingle n data = Json.obj JsonObj.onil ∧
        stringify (statsSingle n data) = "\x7b\x7d" ∧
        toolsStatsAction (some n) ⟨false⟩ (.ok data) =
          ([Out.emptyStateOut ("no stats for \x27" ++ n ++ "\x27")], 0)) := by
  intro n data hn
  constructor
  · simp [toolsStatsAction, catchWrap, truthyStr, hn]
  · intro h
    have hflt := filter_eq_nil_of_lookup_none n data h
    have hsingle : statsSingle n data = Json.obj JsonObj.onil := by
      simp [statsSingle, h]
    refine ⟨hsingle, by rw [hsingle]; rfl, ?_⟩
    simp [toolsStatsAction, catchWrap, statsEntries, truthyStr, hn, hflt]

/-- Witness for C10 with the name "missing" absent from a one-entry
mapping. -/
theorem tools_stats_json_singleton_witness :
    toolsStatsAction (some "missing") ⟨true⟩ (.ok [("other", ⟨1, 1, 0, 2, none⟩)]) =
      ([Out.jsonOut (statsSingle "missing" [("other", ⟨1, 1, 0, 2, none⟩)])], 0) ∧
    stringify (statsSingle "missing" [("other", ⟨1, 1, 0, 2, none⟩)]) = "\x7b\x7d" ∧
    toolsStatsAction (some "missing") ⟨false⟩ (.ok [("other", ⟨1, 1, 0, 2, none⟩)]) =
      ([Out.emptyStateOut "no stats for \x27missing\x27"], 0) := by
  have h := tools_stats_json_singleton "missing" [("other", ⟨1, 1, 0, 2, none⟩)]
    (by decide)
  exact ⟨h.1, (h.2 rfl).2.1, (h.2 rfl).2.2⟩
